import Mathlib

/-!
Verification of the SSO (Solar System Observer) DSL implementation against its
natural-language specification.

The development shallowly embeds the Python sources of the `sso` package:

* `classes.py`   — `SSOSystemConfig` (env slots, `set_Tz`, `boolean_setter`
  for `Echo`/`Log`, `toUTC`, `fromUTC`);
* `interpreter.py` — `VariableManager.set_body` / `get_body`,
  `ArrowOperationHandler.execute`, the logical operators `or_op` / `and_and`
  / `not_op`, and the auxiliary call `auxcall`;
* `repl.py` / `sso.py` — the two REPL drivers and their
  `reset_observation_environment`;
* `formatter.py` — `BodyPosition.directions` (compass binning).

Conventions of the embedding:

* Python floats are modelled as exact rationals (`ℚ`); the claims under
  scrutiny concern exact comparisons and one-second precision, not rounding.
* A `datetime` instant is modelled by its count of seconds (`ℤ`); formatting
  a datetime with `"%Y/%m/%d %H:%M:%S"` and parsing such text back are
  mutually inverse bijections in CPython, so the text of a date-time is
  represented by the instant it denotes.  What is modelled explicitly is
  everything beyond that bijection: the `%z` offset suffix built by `toUTC`,
  its failure modes, and the extra `" [+Tz]"` label `fromUTC` appends.
* Calls into the external `ephem` library (position computation, geometry
  formatting, separation, the eclipse search) are oracle parameters: the
  dispatcher is defined over an arbitrary oracle, so the theorems hold for
  every behaviour of the external ephemeris.
* Python exceptions are modelled with `Option`/dedicated result constructors.
-/

namespace SSO

/-- Python `int(q)` on a real value: truncation toward zero. -/
def pyInt (q : ℚ) : ℤ :=
  if 0 ≤ q then ⌊q⌋ else ⌈q⌉

/-- Python float modulo `a % b` for `b > 0`: the result takes the sign of the
divisor, i.e. `a - b * ⌊a / b⌋`. -/
def pymod (a b : ℚ) : ℚ :=
  a - b * ⌊a / b⌋

/-- Python float floor-division `a // b` wrapped in `int(...)`. -/
def pyFloorDiv (a b : ℚ) : ℤ :=
  ⌊a / b⌋

/-- Geodetic station (`ephem.Observer`): latitude, longitude, elevation and
its current reference date.  The date is an `ephem` date, modelled as a
rational number (ephem dates are floating-point Dublin Julian dates). -/
structure Observer where
  lat : ℚ
  lon : ℚ
  elev : ℚ
  date : ℚ
deriving DecidableEq, Repr

/-- Configuration environment of `SSOSystemConfig.__init__` (classes.py).
The source initialises the dict with `Tz`, `Echo`, `Log`, `Time`, `Here`
and `Chokai`.  The `Earth` slot is modelled from the spec: §3 lists `Earth`
among the env observers and `SSOInterpreter._load_config` writes
`self.config.env['Earth']`, but the `classes.py` revision in the tree does
not initialise it. -/
structure EnvState where
  Tz : ℚ
  Echo : String
  Log : String
  Time : ℚ
  Here : Observer
  Chokai : Observer
  Earth : Observer
deriving DecidableEq, Repr

/-- Constants.DEFAULT_TIMEZONE (classes.py). -/
def Constants.DEFAULT_TIMEZONE : ℚ := 9
/-- Constants.DEFAULT_ECHO (classes.py). -/
def Constants.DEFAULT_ECHO : String := "Yes"
/-- Constants.DEFAULT_LOG (classes.py). -/
def Constants.DEFAULT_LOG : String := "No"

/-- Initial env of `SSOSystemConfig.__init__`, with `Time` frozen at instant 0
and default observers at the origin; the `Earth` observer is the geocentre
written by `_load_config` (lat 0, lon 0, elevation −EARTH_RADIUS). -/
def initEnv : EnvState :=
  { Tz := Constants.DEFAULT_TIMEZONE
    Echo := Constants.DEFAULT_ECHO
    Log := Constants.DEFAULT_LOG
    Time := 0
    Here := ⟨0, 0, 0, 0⟩
    Chokai := ⟨0, 0, 0, 0⟩
    Earth := ⟨0, 0, -6378137, 0⟩ }

/-- SSOSystemConfig.set_Tz (classes.py:546-549).  The source is
`self.env["Tz"] = float(value)` followed by returning a message string;
there is no validation of any kind.  The message (an f-string rendering of
the new value) is not modelled. -/
def SSOSystemConfig.set_Tz (e : EnvState) (value : ℚ) : EnvState :=
  { e with Tz := value }

/-- Python `str.lower()` restricted to ASCII, as applied to the values the
DSL produces (per-character lowercasing). -/
def pyLower (s : String) : String :=
  String.mk (s.data.map Char.toLower)

/-- Normalisation performed by the `boolean_setter` decorator
(classes.py:42-59) on `str(value).lower()`: four spellings map to "No",
four map to "Yes", and any other value is stored unchanged. -/
def boolean_setter (value : String) : String :=
  let s_val := pyLower value
  if s_val ∈ ["0", "off", "false", "no"] then "No"
  else if s_val ∈ ["1", "on", "true", "yes"] then "Yes"
  else value

/-- SSOSystemConfig.set_Echo (classes.py), i.e. `boolean_setter "Echo"`
applied to the env.  The argument is the `str(value)` rendering of the
assigned value. -/
def SSOSystemConfig.set_Echo (e : EnvState) (value : String) : EnvState :=
  { e with Echo := boolean_setter value }

/-- SSOSystemConfig.set_Log (classes.py), i.e. `boolean_setter "Log"`. -/
def SSOSystemConfig.set_Log (e : EnvState) (value : String) : EnvState :=
  { e with Log := boolean_setter value }

/-- SSOSystemConfig.set_Here (classes.py): stores the value with no check. -/
def SSOSystemConfig.set_Here (e : EnvState) (value : Observer) : EnvState :=
  { e with Here := value }

/-- SSOSystemConfig.set_Time (classes.py): stores the value with no check. -/
def SSOSystemConfig.set_Time (e : EnvState) (value : ℚ) : EnvState :=
  { e with Time := value }

/-!
Local-time text and the `toUTC` / `fromUTC` pair (classes.py:581-606).

`fromUTC` renders a UTC instant as
`f"{date_part:<10} {time_part:<8} {offset_str}"` where `offset_str` is the
label `[+9]` built from env Tz; `sec` below is the instant denoted by the
`%Y/%m/%d %H:%M:%S` part and `hasTzLabel` records the trailing label.

`toUTC` appends `"+" + f"{int(Tz*100):04}"` to its input and parses the
result with `strptime(..., "%Y/%m/%d %H:%M:%S%z")`:

* if the input carries extra text after the seconds field (as `fromUTC`
  output does), the `%z` pattern cannot match and strptime raises;
* if `int(Tz*100)` is negative, the appended text is `"+-1200"`-shaped,
  which the `%z` pattern rejects;
* the `%z` pattern requires the minutes digits to be in 00..59;
* CPython builds `timezone(timedelta(...))`, which requires the offset to
  be smaller than 24 hours.

A successful parse interprets `+HHMM` as `HH` hours and `MM` minutes and
subtracts that offset from the naive local fields to reach UTC.
-/

/-- Textual local date-time as produced or consumed around `toUTC` /
`fromUTC`: the instant denoted by the `%Y/%m/%d %H:%M:%S` portion plus a
flag recording whether the trailing `" [+Tz]"` label of `fromUTC` output is
present. -/
structure LocalTimeText where
  sec : ℤ
  hasTzLabel : Bool
deriving DecidableEq, Repr

/-- SSOSystemConfig.fromUTC (classes.py:587-606): convert the UTC instant
`d` (seconds) to local time by adding the Tz offset (seconds, truncated to
whole seconds by the `%H:%M:%S` rendering) and append the `[+Tz]` label. -/
def SSOSystemConfig.fromUTC (Tz : ℚ) (d : ℤ) : LocalTimeText :=
  { sec := d + ⌊3600 * Tz⌋, hasTzLabel := true }

/-- SSOSystemConfig.toUTC (classes.py:581-585): append the `%z` offset text
and parse.  `none` models the `ValueError` raised by `strptime`. -/
def SSOSystemConfig.toUTC (Tz : ℚ) (t : LocalTimeText) : Option ℤ :=
  if t.hasTzLabel then none
  else
    let code := pyInt (Tz * 100)
    if code < 0 then none
    else if 60 ≤ code % 100 then none
    else if 2400 ≤ code then none
    else some (t.sec - ((code / 100) * 3600 + (code % 100) * 60))

/-!
Logical operators of the evaluator (interpreter.py:409-440).  The visitor
returns `float(left or right)`, `float(left and right)` and
`float(not value)`; Python `or`/`and` return one of their operands (the
left if its truthiness decides, otherwise the right), and a float is falsy
exactly when it is zero.
-/

/-- SSOInterpreter.or_op (interpreter.py:409-413): `float(left or right)`. -/
def SSOInterpreter.or_op (left right : ℚ) : ℚ :=
  if left = 0 then right else left

/-- SSOInterpreter.and_and (interpreter.py:424-428): `float(left and right)`. -/
def SSOInterpreter.and_and (left right : ℚ) : ℚ :=
  if left = 0 then left else right

/-- SSOInterpreter.not_op (interpreter.py:437-440): `float(not value)`. -/
def SSOInterpreter.not_op (value : ℚ) : ℚ :=
  if value = 0 then 1 else 0

/-!
Compass binning (formatter.py:45-71), `BodyPosition.directions`.
-/

/-- Four-way compass labels (formatter.py). -/
def directions_4 : List String := ["北", "東", "南", "西"]

/-- Eight-way compass labels (formatter.py). -/
def directions_8 : List String :=
  ["北", "北東", "東", "南東", "南", "南西", "西", "北西"]

/-- Sixteen-way compass labels (formatter.py). -/
def directions_16 : List String :=
  ["北", "北北東", "北東", "東北東", "東", "東南東", "南東", "南南東",
   "南", "南南西", "南西", "西南西", "西", "西北西", "北西", "北北西"]

/-- BodyPosition.directions (formatter.py:45-71).  The degree is first
reduced with `float(degree) % 360`; the branch for each split count
computes `int((degree + off) // step) % n` and indexes the label table;
`none` models the `ValueError` for an unsupported split count, and list
indexing is modelled with `List.get?` so that an out-of-range index would
also surface as `none`. -/
def BodyPosition.directions (degree : ℚ) (intermediate : ℕ) : Option String :=
  let d := pymod degree 360
  if intermediate = 4 then
    directions_4.get? ((pyFloorDiv (d + 45) 90) % 4).toNat
  else if intermediate = 8 then
    directions_8.get? ((pyFloorDiv (d + 45/2) 45) % 8).toNat
  else if intermediate = 16 then
    directions_16.get? ((pyFloorDiv (d + 45/4) (45/2)) % 16).toNat
  else none

/-!
Value domain of the evaluator.  `isinstance` dispatch on `ephem` classes is
modelled by the constructor (for `ephem.Sun` / `ephem.Moon`, which are
`ephem.Body` subclasses, by the carried class name).  `SSOEarth` is the
transient earth context built by the `Sun -> Observer` arrow step.
-/

/-- Transient context produced by `Sun -> Observer` (`SSOEarth` instance):
it carries the observer whose date was primed for the eclipse search. -/
structure EarthCtx where
  obs : Observer
deriving DecidableEq, Repr

/-- Runtime values flowing through the arrow dispatcher. -/
inductive SSOValue where
  | num (q : ℚ)
  | strv (s : String)
  | datev (d : ℚ)
  | obsv (o : Observer)
  | bodyv (name : String)
  | earthv (e : EarthCtx)
deriving DecidableEq, Repr

/-!
Per-statement observation hints (`self.var_mgr.observer`,
interpreter.py).  The dict maps a body name to the auxiliary value stored
by `auxcall`; along the arrow paths modelled here those values are ephem
dates or numbers, so they are carried as rationals.  The dict is modelled
as an association list with newest binding first, matching dict overwrite
semantics for lookups.
-/

/-- Dictionary update performed by `SSOInterpreter.auxcall`
(interpreter.py:568-581): `self.var_mgr.observer[aux_name] = args[0]`. -/
def SSOInterpreter.auxcall_store (hints : List (String × ℚ)) (aux_name : String)
    (arg : ℚ) : List (String × ℚ) :=
  (aux_name, arg) :: hints

/-- Date chosen for the left observer by arrow pattern 1
(interpreter.py:136-140): `self.var_mgr.observer.get(target.name,
default_date)` with `default_date = self.config.env.get("Time", now)`;
the env always holds a `Time` entry, so the default is env `Time`. -/
def hint_date (hints : List (String × ℚ)) (envTime : ℚ) (name : String) : ℚ :=
  (hints.lookup name).getD envTime

/-- Arrow pattern 1, `Observer -> Body` (interpreter.py:131-152): write the
chosen date into the left observer, run
`CelestialCalculator(obs, target, config)` and return the position record.
The position computation delegates to the external ephemeris (the method
body is `body.compute(observer)` plus attribute reads), so it is an oracle
parameter `compute`; the result pairs the mutated observer with the value
the Python function returns. -/
def arrow_observer_body {α : Type} (compute : Observer → String → α)
    (hints : List (String × ℚ)) (envTime : ℚ) (obs : Observer)
    (targetName : String) : Observer × α :=
  let obs2 := { obs with date := hint_date hints envTime targetName }
  (obs2, compute obs2 targetName)

/-- External collaborators of `ArrowOperationHandler.execute`, as oracle
parameters: position computation (pattern 1), the two-observer geometry
report (pattern 2), the formatted angular-separation string (pattern 3)
and `SSOEarth.lunar_eclipse` (pattern 4.2). -/
structure ArrowOracle (α β : Type) where
  compute : Observer → String → α
  reformat2 : Observer → Observer → String
  separationFmt : String → String → String
  lunar_eclipse : EarthCtx → ℤ → Option ℚ → β

/-- Result of one `execute` call.  `noneResult` is the Python `None` that
`execute` returns when no pattern matches: the `Error: Invalid arrow
operation` return (interpreter.py:254-257) sits, together with the whole
solar-eclipse section, inside `_split_date` after its `return` statement
and is unreachable, so control falls off the end of `execute`. -/
inductive ArrowResult (α β : Type) where
  | position (obs : Observer) (p : α)
  | geometry (s : String)
  | separation (s : String)
  | earthContext (e : EarthCtx)
  | eclipse (r : β)
  | noneResult

/-- ArrowOperationHandler.execute (interpreter.py:118-219).  Patterns in
source order: `Observer -> Body`, `Observer -> Observer`, `Body -> Body`
(checked before the Sun pattern, as in the source, since `ephem.Sun` is an
`ephem.Body`), `Sun -> Observer` and `SSOEarth -> Moon`; any other shape
falls off the end of the method and returns `None`. -/
def ArrowOperationHandler.execute {α β : Type} (oracle : ArrowOracle α β)
    (hints : List (String × ℚ)) (envTime : ℚ)
    (obs target : SSOValue) : ArrowResult α β :=
  match obs, target with
  | .obsv o, .bodyv b =>
      let r := arrow_observer_body oracle.compute hints envTime o b
      .position r.1 r.2
  | .obsv o1, .obsv o2 => .geometry (oracle.reformat2 o1 o2)
  | .bodyv b1, .bodyv b2 => .separation (oracle.separationFmt b1 b2)
  | .bodyv "Sun", .obsv o =>
      let d := (hints.lookup "Sun").getD envTime
      .earthContext ⟨{ o with date := d }⟩
  | .earthv e, .bodyv "Moon" =>
      let period := pyInt ((hints.lookup "Moon").getD 5)
      let place := (hints.getLast?).map Prod.snd
      .eclipse (oracle.lunar_eclipse e period place)
  | _, _ => .noneResult

/-!
Variable manager (interpreter.py:27-108).
-/

/-- Reserved celestial names.  Modelled from the spec: `Constants.KEYWORD`
is referenced at interpreter.py:67 but the `classes.py` revision in the
tree predates it; §3 of the spec fixes the reserved set. -/
def Constants.KEYWORD : List String :=
  ["Sun", "Mercury", "Venus", "Earth", "Moon", "Mars", "Jupiter", "Io",
   "Europa", "Ganymede", "Callisto", "Saturn", "Uranus", "Neptune", "Pluto"]

/-- Keys of the configuration env dict, i.e. `self.config.env.keys()`.
`Earth` is included per the spec (§3) and the loader write at
interpreter.py:343; the dynamic `Direction` key, which exists only after a
`Direction(n)` call, is not modelled (no claim depends on it). -/
def env_keys : List String :=
  ["Tz", "Echo", "Log", "Time", "Here", "Chokai", "Earth"]

/-- Body names the external ephemeris library can construct, i.e. the names
for which `getattr(ephem, name)()` succeeds.  Modelled from the spec: §1
and §4.3 state the external engine supplies Sun, Moon, the planets and the
listed Galilean moons; `ephem` has no `Earth` body class. -/
def ephem_body_names : List String :=
  ["Sun", "Moon", "Mercury", "Venus", "Mars", "Jupiter", "Saturn", "Uranus",
   "Neptune", "Pluto", "Io", "Europa", "Ganymede", "Callisto"]

/-- SSOSystemConfig.SSOEphem for a body name (classes.py:571-579):
`getattr(ephem, attr)()`; `none` models the `AttributeError` for an
unknown name. -/
def SSOSystemConfig.SSOEphem (name : String) : Option SSOValue :=
  if name ∈ ephem_body_names then some (.bodyv name) else none

/-- Store of the variable manager: DSL variables (`self.variables`,
renamed `vars` as `variables` is a Lean keyword), body slots and the
config env. -/
structure InterpState where
  vars : List (String × SSOValue)
  bodies : List (String × SSOValue)
  env : EnvState
deriving DecidableEq, Repr

/-- Outcome of `VariableManager.set_body`: a message string (env-setter
result or rejection message), the stored value, or a propagated exception
(a non-`AttributeError` raised inside a setter, e.g. `float()` on a
non-numeric value). -/
inductive SetBodyResult where
  | msg (m : String)
  | val (v : SSOValue)
  | raised
deriving DecidableEq, Repr

/-- Routing of `set_body` for an env key: `getattr(self.config,
f"set_{name}")` then `method(value)`.  The config class defines setters
for `Tz`, `Echo`, `Log`, `Here` and `Time` only; for `Chokai` and `Earth`
the `getattr` raises `AttributeError`, which `set_body` catches and turns
into the `Error: Cannot set ...` message without touching the env.  Setter
messages are abbreviated; value shapes the setters would crash on
(`float()` / observer coercion failures) yield `raised`. -/
def set_env_route (name : String) (v : SSOValue) (s : InterpState) :
    SetBodyResult × InterpState :=
  if name = "Tz" then
    match v with
    | .num q => (.msg "UTCからの時差", { s with env := SSOSystemConfig.set_Tz s.env q })
    | _ => (.raised, s)
  else if name = "Echo" then
    match v with
    | .strv t => (.msg "Echo mode", { s with env := SSOSystemConfig.set_Echo s.env t })
    | _ => (.raised, s)
  else if name = "Log" then
    match v with
    | .strv t => (.msg "Log mode", { s with env := SSOSystemConfig.set_Log s.env t })
    | _ => (.raised, s)
  else if name = "Here" then
    match v with
    | .obsv o => (.msg "Default observer", { s with env := SSOSystemConfig.set_Here s.env o })
    | _ => (.raised, s)
  else if name = "Time" then
    match v with
    | .datev d => (.msg "Observation date_time", { s with env := SSOSystemConfig.set_Time s.env d })
    | .num q => (.msg "Observation date_time", { s with env := SSOSystemConfig.set_Time s.env q })
    | _ => (.raised, s)
  else (.msg ("Error: Cannot set " ++ name), s)

/-- VariableManager.set_body (interpreter.py:46-73): env keys route to the
validating setter; reserved keywords are rejected with an error message;
anything else is stored in the body slots and echoed back. -/
def VariableManager.set_body (name : String) (v : SSOValue) (s : InterpState) :
    SetBodyResult × InterpState :=
  if name ∈ env_keys then set_env_route name v s
  else if name ∈ Constants.KEYWORD then
    (.msg ("Error: Cannot set Body name=" ++ name), s)
  else (.val v, { s with bodies := (name, v) :: s.bodies })

/-- Env read performed by `get_body` for an env key. -/
def env_get (e : EnvState) (name : String) : SSOValue :=
  if name = "Tz" then .num e.Tz
  else if name = "Echo" then .strv e.Echo
  else if name = "Log" then .strv e.Log
  else if name = "Time" then .datev e.Time
  else if name = "Here" then .obsv e.Here
  else if name = "Chokai" then .obsv e.Chokai
  else .obsv e.Earth

/-- VariableManager.get_body (interpreter.py:75-108): env keys read the env;
`Now` reads the clock (`now` parameter); otherwise the stored body is
returned, auto-registering a default ephemeris object on first reference;
`none` models the `ValueError` for an unknown name. -/
def VariableManager.get_body (name : String) (now : ℚ) (s : InterpState) :
    Option (SSOValue × InterpState) :=
  if name ∈ env_keys then some (env_get s.env name, s)
  else if name = "Now" then some (.datev now, s)
  else
    match s.bodies.lookup name with
    | some v => some (v, s)
    | none =>
        match SSOSystemConfig.SSOEphem name with
        | some v => some (v, { s with bodies := (name, v) :: s.bodies })
        | none => none

/-- Interpreter state at REPL start: empty variable and body maps over the
initial env. -/
def init_state : InterpState :=
  { vars := [], bodies := [], env := initEnv }

/-!
The two REPL drivers.  Both call `reset_observation_environment` before
parsing and visiting each top-level statement (`default`, repl.py:147-169
and sso.py:101-119).  The repl.py revision clears only the hint dict — the
`env['Time']` reset is commented out there — while the sso.py revision
also resets `env['Time']` to the current clock time.
-/

/-- Driver-visible state: the env `Time` slot and the per-statement hint
dict `var_mgr.observer`. -/
structure ReplState where
  envTime : ℚ
  observer_hints : List (String × ℚ)
deriving DecidableEq, Repr

/-- SSOShell.reset_observation_environment (repl.py:142-145):
`self.interp.var_mgr.observer = {}`; the `Time` reset is commented out. -/
def repl_reset_observation_environment (s : ReplState) : ReplState :=
  { s with observer_hints := [] }

/-- SSOShell.reset_observation_environment (sso.py:97-99):
`self.interp.config.env['Time'] = self.interp.config.SSOEphem("now")`
followed by `self.interp.var_mgr.observer = {}`. -/
def sso_reset_observation_environment (now : ℚ) (_s : ReplState) : ReplState :=
  { envTime := now, observer_hints := [] }

/-- States handed to the evaluator by the repl.py driver: for each incoming
statement, `default` resets the observation environment and visits the
parse tree in the resulting state (repl.py:165-176). -/
def repl_pre_visit_states {σ : Type} (visit : σ → ReplState → ReplState) :
    List σ → ReplState → List ReplState
  | [], _ => []
  | t :: ts, s =>
      repl_reset_observation_environment s ::
        repl_pre_visit_states visit ts (visit t (repl_reset_observation_environment s))

/-!
Lunar-eclipse refinement.  Modelled from the spec: `SSOEarth.lunar_eclipse`
is imported by interpreter.py from `classes`, but the `classes.py` revision
in the tree predates `SSOEarth`; §4.6 of the spec fixes the refinement
contract — per-sample magnitude `(R_u + r_m − s) / (2 r_m)`, maximum as the
sample with greatest magnitude, and classification of the event from the
peak magnitude.
-/

/-- Modelled from the spec: per-sample eclipse magnitude of §4.6,
`m = (R_u + r_m − s) / (2·r_m)`. -/
def eclipse_magnitude (Ru rm s : ℚ) : ℚ :=
  (Ru + rm - s) / (2 * rm)

/-- Modelled from the spec: classification of §4.6, `m ≥ 1.0` total,
`0 < m < 1.0` partial, otherwise penumbral. -/
def classify_eclipse (m : ℚ) : String :=
  if 1 ≤ m then "total" else if 0 < m then "partial" else "penumbral"

/-- Modelled from the spec: the maximum is the sample with the greatest
magnitude among the refinement samples. -/
def peak_magnitude : List ℚ → Option ℚ
  | [] => none
  | m :: ms => some (ms.foldl max m)

/-- Modelled from the spec: refinement of one candidate — status label and
peak magnitude derived from the sampled magnitudes (`none` when there are
no samples). -/
def refine_candidate (ms : List ℚ) : Option (String × ℚ) :=
  (peak_magnitude ms).map (fun p => (classify_eclipse p, p))

/-- Trivial oracle instantiation used to evaluate the dispatcher at
concrete inputs. -/
def unitOracle : ArrowOracle Unit Unit :=
  { compute := fun _ _ => ()
    reformat2 := fun _ _ => ""
    separationFmt := fun _ _ => ""
    lunar_eclipse := fun _ _ _ => () }

/-!
Theorems. Each claim of the specification review is settled below; witness
theorems instantiate the hypotheses of their main theorem at concrete
inputs.
-/

/-- Claim C1, counterexample: the claim states that `set_Tz(14.01)` is
rejected and env.Tz retains its previous value; in the source `set_Tz`
performs no range check, so 14.01 (which is greater than 14) is accepted
and stored over the default 9. -/
theorem set_Tz_accepts_14_01 :
    (SSOSystemConfig.set_Tz initEnv (1401/100)).Tz = 1401/100 ∧
    ¬ ((1401/100 : ℚ) ≤ 14) ∧ initEnv.Tz = 9 :=
  ⟨rfl, by norm_num, rfl⟩

/-- Claim C1 (amended): `set_Tz(v)` succeeds for every value `v`, storing
`float(v)` into env.Tz unconditionally — there is no range validation —
and every other env slot is left unchanged. -/
theorem set_Tz_always_stores (e : EnvState) (v : ℚ) :
    (SSOSystemConfig.set_Tz e v).Tz = v ∧
    (SSOSystemConfig.set_Tz e v).Echo = e.Echo ∧
    (SSOSystemConfig.set_Tz e v).Log = e.Log ∧
    (SSOSystemConfig.set_Tz e v).Time = e.Time ∧
    (SSOSystemConfig.set_Tz e v).Here = e.Here ∧
    (SSOSystemConfig.set_Tz e v).Chokai = e.Chokai ∧
    (SSOSystemConfig.set_Tz e v).Earth = e.Earth :=
  ⟨rfl, rfl, rfl, rfl, rfl, rfl, rfl⟩

/-- Claim C2, counterexample: with Tz = 9, which lies inside [-12, 14],
`toUTC(fromUTC(d))` does not return `d`; it raises, because the output of
`fromUTC` carries the trailing `[+Tz]` label that the
`"%Y/%m/%d %H:%M:%S%z"` pattern of `toUTC` cannot parse. -/
theorem toUTC_fromUTC_raises_at_Tz9 :
    SSOSystemConfig.toUTC 9 (SSOSystemConfig.fromUTC 9 0) = none ∧
    (-12 : ℚ) ≤ 9 ∧ (9 : ℚ) ≤ 14 :=
  ⟨rfl, by norm_num, by norm_num⟩

/-- Claim C2 (amended): for every whole-hour non-negative Tz up to 14 and
every UTC instant `d`, applying `toUTC` to the date-time portion of
`fromUTC`'s output (the text without the trailing `[+Tz]` label) recovers
`d` exactly; the literal composition fails because of that label, and
`toUTC` also fails for every negative Tz (the generated `%z` text is
malformed) and returns a shifted instant for fractional Tz. -/
theorem toUTC_fromUTC_roundtrip (n : ℕ) (hn : n ≤ 14) (d : ℤ) :
    SSOSystemConfig.toUTC (n : ℚ)
      { sec := (SSOSystemConfig.fromUTC (n : ℚ) d).sec, hasTzLabel := false }
      = some d := by
  have h100 : ((n : ℚ) * 100) = ((100 * (n : ℤ) : ℤ) : ℚ) := by push_cast; ring
  have hfloor100 : ⌊(n : ℚ) * 100⌋ = 100 * (n : ℤ) := by
    rw [h100, Int.floor_intCast]
  have hfloor3600 : ⌊3600 * (n : ℚ)⌋ = 3600 * (n : ℤ) := by
    rw [show (3600 * (n : ℚ)) = ((3600 * (n : ℤ) : ℤ) : ℚ) by push_cast; ring,
      Int.floor_intCast]
  have h0 : (0 : ℚ) ≤ (n : ℚ) * 100 := by positivity
  have hn' : (n : ℤ) ≤ 14 := by exact_mod_cast hn
  simp only [SSOSystemConfig.toUTC, SSOSystemConfig.fromUTC, pyInt, if_pos h0,
    hfloor100, hfloor3600, Bool.false_eq_true, if_false]
  have hmod : (100 * (n : ℤ)) % 100 = 0 := Int.mul_emod_right 100 _
  have hdiv : (100 * (n : ℤ)) / 100 = (n : ℤ) :=
    Int.mul_ediv_cancel_left _ (by norm_num)
  rw [if_neg (by omega), if_neg (by omega), if_neg (by omega), hmod, hdiv]
  norm_num
  ring

/-- Claim C2, witness for the amended round trip at Tz = 9, d = 0. -/
theorem toUTC_fromUTC_roundtrip_at_9 :
    SSOSystemConfig.toUTC ((9 : ℕ) : ℚ)
      { sec := (SSOSystemConfig.fromUTC ((9 : ℕ) : ℚ) 0).sec, hasTzLabel := false }
      = some 0 :=
  toUTC_fromUTC_roundtrip 9 (by norm_num) 0

/-- Claim C6, counterexample: the claim states every logical operator
returns exactly 0.0 or 1.0; `or_op` is `float(left or right)`, which for
the operands 2 and 3 returns 2. -/
theorem or_op_two_three :
    SSOInterpreter.or_op 2 3 = 2 ∧
    ¬ (SSOInterpreter.or_op 2 3 = 0 ∨ SSOInterpreter.or_op 2 3 = 1) := by
  constructor
  · norm_num [SSOInterpreter.or_op]
  · norm_num [SSOInterpreter.or_op]

/-- Claim C6 (amended): the operators treat 0 as false and every non-zero
number as true in the sense that the truthiness of the result is the
logical combination of the operand truthinesses, and `NOT` always returns
exactly 0.0 or 1.0; but `AND` and `OR` return one of their operands
unchanged, so their result is 0.0 or 1.0 only when that operand is. -/
theorem logical_ops_truthiness (l r : ℚ) :
    (SSOInterpreter.or_op l r ≠ 0 ↔ (l ≠ 0 ∨ r ≠ 0)) ∧
    (SSOInterpreter.and_and l r ≠ 0 ↔ (l ≠ 0 ∧ r ≠ 0)) ∧
    (SSOInterpreter.or_op l r = l ∨ SSOInterpreter.or_op l r = r) ∧
    (SSOInterpreter.and_and l r = l ∨ SSOInterpreter.and_and l r = r) ∧
    (SSOInterpreter.not_op l = 0 ∨ SSOInterpreter.not_op l = 1) ∧
    (SSOInterpreter.not_op l = 1 ↔ l = 0) := by
  unfold SSOInterpreter.or_op SSOInterpreter.and_and SSOInterpreter.not_op
  by_cases hl : l = 0 <;> by_cases hr : r = 0 <;> simp [hl, hr]

/-- Claim C6, witness: the truthiness law evaluated at concrete operands. -/
theorem logical_ops_truthiness_at :
    SSOInterpreter.not_op 0 = 1 ∧ SSOInterpreter.or_op 2 0 ≠ 0 :=
  ⟨(logical_ops_truthiness 0 0).2.2.2.2.2.mpr rfl,
   (logical_ops_truthiness 2 0).1.mpr (Or.inl (by norm_num))⟩

/-- Claim C7, counterexample: the claim states every value outside
{0, off, false, no} is stored as "Yes"; the source's `boolean_setter`
normalises only the eight listed spellings and stores any other value
unchanged, so assigning "maybe" to Echo stores "maybe". -/
theorem set_Echo_maybe :
    (SSOSystemConfig.set_Echo initEnv "maybe").Echo = "maybe" ∧
    "maybe" ≠ "Yes" ∧
    pyLower "maybe" ∉ (["0", "off", "false", "no"] : List String) := by
  refine ⟨?_, by decide, by decide⟩
  decide

/-- Claim C7 (amended): for a value assigned to Echo or Log, the setter
stores "No" exactly when the lowercased rendering is one of
0/off/false/no, stores "Yes" when it is one of 1/on/true/yes, and stores
the value unchanged in every other case; Echo and Log share the same
normalisation. -/
theorem boolean_setter_spec (e : EnvState) (v : String) :
    ((SSOSystemConfig.set_Echo e v).Echo = "No" ↔
      pyLower v ∈ (["0", "off", "false", "no"] : List String)) ∧
    (pyLower v ∈ (["1", "on", "true", "yes"] : List String) →
      (SSOSystemConfig.set_Echo e v).Echo = "Yes") ∧
    (pyLower v ∉ (["0", "off", "false", "no"] : List String) →
      pyLower v ∉ (["1", "on", "true", "yes"] : List String) →
      (SSOSystemConfig.set_Echo e v).Echo = v) ∧
    (SSOSystemConfig.set_Log e v).Log = (SSOSystemConfig.set_Echo e v).Echo := by
  unfold SSOSystemConfig.set_Echo SSOSystemConfig.set_Log boolean_setter
  dsimp only
  refine ⟨?_, ?_, ?_, rfl⟩
  · split_ifs with h1 h2
    · simp [h1]
    · simp only [iff_false_intro h1, iff_false]
      decide
    · constructor
      · intro hv
        exact absurd (by rw [hv]; decide) h1
      · intro hmem
        exact absurd hmem h1
  · intro hmem
    split_ifs with h1
    · exfalso
      simp only [List.mem_cons, List.not_mem_nil, or_false] at h1 hmem
      rcases h1 with h | h | h | h <;> rw [h] at hmem <;> simp at hmem
    · rfl
  · intro h1 h2
    rw [if_neg h1, if_neg h2]

/-- Claim C7, witness: the amended normalisation evaluated at "off". -/
theorem boolean_setter_spec_at :
    (SSOSystemConfig.set_Echo initEnv "off").Echo = "No" :=
  (boolean_setter_spec initEnv "off").1.mpr (by decide)

/-- Helper: indexing a list at a non-negative integer below its length
yields an element of the list. -/
theorem list_get_int_mem (l : List String) (i : ℤ) (h0 : 0 ≤ i)
    (h1 : i < l.length) : ∃ s, l.get? i.toNat = some s ∧ s ∈ l := by
  have hn : i.toNat < l.length := by omega
  exact ⟨l.get ⟨i.toNat, hn⟩, List.get?_eq_get hn, List.get_mem _ _ _⟩

/-- Claim C10 (confirmed): for every real azimuth value, including negative
values and values of 360 or more, and every split count in {4, 8, 16},
`BodyPosition.directions` succeeds and returns an element of the matching
label table: the offset-and-divide index reduced modulo the split count
always lies within the table bounds. -/
theorem directions_total_in_table (degree : ℚ) :
    (∃ s, BodyPosition.directions degree 4 = some s ∧ s ∈ directions_4) ∧
    (∃ s, BodyPosition.directions degree 8 = some s ∧ s ∈ directions_8) ∧
    (∃ s, BodyPosition.directions degree 16 = some s ∧ s ∈ directions_16) := by
  unfold BodyPosition.directions
  refine ⟨?_, ?_, ?_⟩
  · simp only [if_pos rfl]
    exact list_get_int_mem _ _ (Int.emod_nonneg _ (by norm_num))
      (by exact Int.emod_lt_of_pos _ (by norm_num))
  · norm_num only
    exact list_get_int_mem _ _ (Int.emod_nonneg _ (by norm_num))
      (by exact Int.emod_lt_of_pos _ (by norm_num))
  · norm_num only
    exact list_get_int_mem _ _ (Int.emod_nonneg _ (by norm_num))
      (by exact Int.emod_lt_of_pos _ (by norm_num))

/-- Claim C5, counterexample: the claim states the REPL driver leaves
env.Time unchanged so that it changes only on user assignment; the sso.py
driver's `reset_observation_environment`, run before every statement,
overwrites env.Time with the current clock time (here 1, over a stored
Time of 0) while clearing the hints. -/
theorem sso_driver_resets_time :
    (sso_reset_observation_environment 1 ⟨0, [("Moon", 3)]⟩).envTime = 1 ∧
    (0 : ℚ) ≠ 1 ∧
    (sso_reset_observation_environment 1 ⟨0, [("Moon", 3)]⟩).observer_hints = [] :=
  ⟨rfl, by norm_num, rfl⟩

/-- Claim C5 (amended): the repl.py driver empties `observer_hints` before
each top-level statement — so every state handed to the evaluator has an
empty hint dict — and its reset leaves env.Time unchanged; the legacy
sso.py driver also empties the hints but additionally resets env.Time to
the current clock time before each statement. -/
theorem repl_driver_resets_hints_keeps_time {σ : Type}
    (visit : σ → ReplState → ReplState) (ts : List σ) (s : ReplState) :
    (∀ p ∈ repl_pre_visit_states visit ts s, p.observer_hints = []) ∧
    (repl_reset_observation_environment s).envTime = s.envTime := by
  constructor
  · induction ts generalizing s with
    | nil => intro p hp; simp [repl_pre_visit_states] at hp
    | cons t ts ih =>
        intro p hp
        simp only [repl_pre_visit_states, List.mem_cons] at hp
        rcases hp with h | h
        · rw [h]; rfl
        · exact ih _ _ h
  · rfl

/-- Claim C5, witness: the repl.py reset applied to a concrete state with a
stale hint and Time 3. -/
theorem repl_driver_resets_hints_keeps_time_at :
    (repl_reset_observation_environment ⟨3, [("Moon", 1)]⟩).envTime = 3 ∧
    (repl_reset_observation_environment ⟨3, [("Moon", 1)]⟩).observer_hints = [] := by
  have h := repl_driver_resets_hints_keeps_time (fun (_ : Unit) s => s)
    [()] ⟨3, [("Moon", 1)]⟩
  exact ⟨h.2, h.1 _ (by simp [repl_pre_visit_states])⟩

/-- Claim C4 (confirmed): for an arrow with an Observer on the left and a
Body on the right, the dispatcher writes `observer_hints[body name]` into
the observer date when the hint exists — in particular right after the
auxiliary call stored it — and env.Time otherwise, then computes the body
at that observer and returns the resulting position record together with
the mutated observer. -/
theorem arrow_observer_body_spec {α : Type} (compute : Observer → String → α)
    (hints : List (String × ℚ)) (t : ℚ) (obs : Observer) (R : String) :
    ((hints.lookup R = none →
        (arrow_observer_body compute hints t obs R).1.date = t) ∧
      ∀ d, hints.lookup R = some d →
        (arrow_observer_body compute hints t obs R).1.date = d) ∧
    (∀ d, (arrow_observer_body compute
        (SSOInterpreter.auxcall_store hints R d) t obs R).1.date = d) ∧
    (arrow_observer_body compute hints t obs R).2
      = compute (arrow_observer_body compute hints t obs R).1 R ∧
    (arrow_observer_body compute hints t obs R).1
      = { obs with date := hint_date hints t R } := by
  refine ⟨⟨?_, ?_⟩, ?_, rfl, rfl⟩
  · intro h
    simp [arrow_observer_body, hint_date, h]
  · intro d h
    simp [arrow_observer_body, hint_date, h]
  · intro d
    simp [arrow_observer_body, hint_date, SSOInterpreter.auxcall_store,
      List.lookup]

/-- Claim C4, witness: the date selection evaluated with a concrete oracle,
empty hints (env.Time taken) and a stored hint (hint taken). -/
theorem arrow_observer_body_spec_at :
    (arrow_observer_body (fun (o : Observer) (_ : String) => o.date)
      [] 5 ⟨0, 0, 0, 0⟩ "Moon").1.date = 5 ∧
    (arrow_observer_body (fun (o : Observer) (_ : String) => o.date)
      (SSOInterpreter.auxcall_store [] "Moon" 7) 5 ⟨0, 0, 0, 0⟩ "Moon").1.date = 7 :=
  ⟨(arrow_observer_body_spec _ [] 5 ⟨0, 0, 0, 0⟩ "Moon").1.1 rfl,
   (arrow_observer_body_spec _ [] 5 ⟨0, 0, 0, 0⟩ "Moon").2.1 7⟩

/-- Helper: the seed of a left fold by `max` bounds the fold from below. -/
theorem le_foldl_max (l : List ℚ) (a : ℚ) : a ≤ l.foldl max a := by
  induction l generalizing a with
  | nil => exact le_refl a
  | cons b l ih => exact le_trans (le_max_left a b) (ih (max a b))

/-- Helper: a left fold by `max` is the seed or an element of the list. -/
theorem foldl_max_mem (l : List ℚ) (a : ℚ) :
    l.foldl max a = a ∨ l.foldl max a ∈ l := by
  induction l generalizing a with
  | nil => exact Or.inl rfl
  | cons b l ih =>
      rcases ih (max a b) with h | h
      · rcases max_choice a b with hm | hm
        · exact Or.inl (by rw [List.foldl, h, hm])
        · exact Or.inr (by rw [List.foldl, h, hm]; exact List.mem_cons_self _ _)
      · exact Or.inr (List.mem_cons_of_mem _ h)

/-- Helper: a left fold by `max` bounds every element of the list. -/
theorem mem_le_foldl_max (l : List ℚ) (a : ℚ) :
    ∀ x ∈ l, x ≤ l.foldl max a := by
  induction l generalizing a with
  | nil => intro x hx; exact absurd hx (List.not_mem_nil x)
  | cons b l ih =>
      intro x hx
      rcases List.mem_cons.mp hx with h | h
      · rw [h, List.foldl]
        exact le_trans (le_max_right a b) (le_foldl_max l _)
      · exact ih (max a b) x h

/-- Claim C3 (confirmed against the spec-modelled engine): every eclipse
event the refinement reports carries a status that is determined by the
peak magnitude alone — the peak is the greatest sampled magnitude, and the
status is "total" exactly when it is at least 1, "partial" exactly when it
is strictly between 0 and 1, and "penumbral" exactly when it is at most
0. -/
theorem lunar_eclipse_classification (ms : List ℚ) (st : String) (p : ℚ)
    (h : refine_candidate ms = some (st, p)) :
    (p ∈ ms ∧ ∀ x ∈ ms, x ≤ p) ∧
    ((st = "total" ↔ 1 ≤ p) ∧ (st = "partial" ↔ (0 < p ∧ p < 1)) ∧
      (st = "penumbral" ↔ p ≤ 0)) := by
  cases ms with
  | nil => simp [refine_candidate, peak_magnitude] at h
  | cons m rest =>
      simp only [refine_candidate, peak_magnitude, Option.map_some,
        Option.some_inj, Prod.mk.injEq] at h
      obtain ⟨hst, hp⟩ := h
      constructor
      · constructor
        · rcases foldl_max_mem rest m with h | h
          · rw [h]; exact List.mem_cons_self _ _
          · exact List.mem_cons_of_mem _ h
        · intro x hx
          rcases List.mem_cons.mp hx with h | h
          · rw [h]; exact le_foldl_max rest m
          · exact mem_le_foldl_max rest m x h
      · unfold classify_eclipse
        split_ifs with h1 h2
        · refine ⟨by simp [h1], ?_, ?_⟩
          · constructor
            · intro hc; exact absurd hc (by decide)
            · intro hc; linarith [hc.2]
          · constructor
            · intro hc; exact absurd hc (by decide)
            · intro hc; linarith
        · refine ⟨?_, ?_, ?_⟩
          · constructor
            · intro hc; exact absurd hc (by decide)
            · intro hc; exact absurd hc h1
          · constructor
            · intro _; exact ⟨h2, lt_of_not_le h1⟩
            · intro _; rfl
          · constructor
            · intro hc; exact absurd hc (by decide)
            · intro hc; linarith
        · refine ⟨?_, ?_, by simp; linarith [not_lt.mp h2]⟩
          · constructor
            · intro hc; exact absurd hc (by decide)
            · intro hc; exact absurd hc h1
          · constructor
            · intro hc; exact absurd hc (by decide)
            · intro hc; exact absurd hc.1 h2

/-- Claim C3, witness: the classification law applied to a concrete sample
list with peak magnitude 2 (a total eclipse). -/
theorem lunar_eclipse_classification_at :
    ((2 : ℚ) ∈ [(1 : ℚ) / 2, 2] ∧ ∀ x ∈ [(1 : ℚ) / 2, 2], x ≤ 2) ∧
    (("total" = "total" ↔ (1 : ℚ) ≤ 2) ∧
      ("total" = "partial" ↔ ((0 : ℚ) < 2 ∧ (2 : ℚ) < 1)) ∧
      ("total" = "penumbral" ↔ (2 : ℚ) ≤ 0)) :=
  lunar_eclipse_classification [1 / 2, 2] "total" 2
    (by norm_num [refine_candidate, peak_magnitude, classify_eclipse])

/-- Claim C8 (code bug, evaluation at the failing input): for operand
shapes outside the supported arrow patterns — here `Number -> Number` and
`String -> Observer` — `execute` returns Python `None` instead of the
specified "Invalid arrow operation" error result, because the error-return
block at interpreter.py:254-257 is mis-indented inside `_split_date` after
that helper's `return` and is unreachable. -/
theorem arrow_execute_unsupported_returns_none :
    ArrowOperationHandler.execute unitOracle [] 0
      (SSOValue.num 1) (SSOValue.num 2) = ArrowResult.noneResult ∧
    ArrowOperationHandler.execute unitOracle [] 0
      (SSOValue.strv "x") (SSOValue.obsv ⟨0, 0, 0, 0⟩) = ArrowResult.noneResult :=
  ⟨rfl, rfl⟩

/-- Helper: `set_body` on a keyword outside the env keys returns the
rejection message without touching the state. -/
theorem set_body_keyword_rejects (name : String)
    (h1 : name ∉ env_keys) (h2 : name ∈ Constants.KEYWORD)
    (v : SSOValue) (s : InterpState) :
    VariableManager.set_body name v s
      = (.msg ("Error: Cannot set Body name=" ++ name), s) := by
  unfold VariableManager.set_body
  rw [if_neg h1, if_pos h2]

/-- Helper: `get_body` on a non-env, non-`Now` name with no stored body
auto-registers the default ephemeris object. -/
theorem get_body_auto_registers (name : String)
    (h1 : name ∉ env_keys) (h3 : name ≠ "Now") (h4 : name ∈ ephem_body_names)
    (now : ℚ) (s : InterpState) (h5 : s.bodies.lookup name = none) :
    VariableManager.get_body name now s
      = some (.bodyv name, { s with bodies := (name, .bodyv name) :: s.bodies }) := by
  unfold VariableManager.get_body SSOSystemConfig.SSOEphem
  rw [if_neg h1, if_neg h3, h5, if_pos h4]

/-- Claim C9 (amended): for every reserved body name other than Earth,
assignment via `set_body` is rejected with an error message and mutates
nothing, and the name still resolves through `get_body` to its default
ephemeris body; Earth, which is simultaneously an env key, is also
rejected without mutation, but it resolves to the env observer slot
rather than to an ephemeris body. -/
theorem set_body_reserved_no_mutation :
    ∀ name ∈ Constants.KEYWORD, name ≠ "Earth" →
    ∀ (v : SSOValue) (s : InterpState) (now : ℚ),
      VariableManager.set_body name v s
        = (.msg ("Error: Cannot set Body name=" ++ name), s) ∧
      (s.bodies.lookup name = none →
        VariableManager.get_body name now s
          = some (.bodyv name, { s with bodies := (name, .bodyv name) :: s.bodies })) := by
  intro name hmem hne
  fin_cases hmem
  all_goals
    first
      | exact absurd rfl hne
      | exact fun v s now =>
          ⟨set_body_keyword_rejects _ (by decide) (by decide) v s,
           fun h5 => get_body_auto_registers _ (by decide) (by decide) (by decide) now s h5⟩

/-- Claim C9, witness: rejecting `Moon = 1` leaves the initial state
untouched and `Moon` still loads the default lunar ephemeris body. -/
theorem set_body_reserved_no_mutation_at :
    VariableManager.set_body "Moon" (.num 1) init_state
      = (.msg "Error: Cannot set Body name=Moon", init_state) ∧
    VariableManager.get_body "Moon" 0 init_state
      = some (.bodyv "Moon", { init_state with bodies := [("Moon", .bodyv "Moon")] }) := by
  have h := set_body_reserved_no_mutation "Moon" (by decide) (by decide)
    (.num 1) init_state 0
  exact ⟨h.1, h.2 rfl⟩

/-- Claim C9, counterexample: Earth is a reserved name whose assignment is
rejected without mutation (the env-setter route finds no `set_Earth` and
returns the error message), but afterwards Earth does not resolve to a
default ephemeris body — `get_body` returns the env observer slot, an
Observer value. -/
theorem get_body_Earth_is_env_observer :
    "Earth" ∈ Constants.KEYWORD ∧
    VariableManager.set_body "Earth" (.num 1) init_state
      = (.msg "Error: Cannot set Earth", init_state) ∧
    VariableManager.get_body "Earth" 0 init_state
      = some (.obsv initEnv.Earth, init_state) ∧
    (∀ b : String, SSOValue.obsv initEnv.Earth ≠ SSOValue.bodyv b) :=
  ⟨by decide, rfl, rfl, fun _ h => SSOValue.noConfusion h⟩

end SSO
